import Mathlib

/-!
Verification of the authentication/authorization core of the
fastapi_quickstart backend: the token codec, the tokens manager,
the JWT authentication backend, the authorization manager and the
login/refresh handlers, as exercised by `apps/main.py` and
`tests/apps/users/test_routers.py`.
-/

namespace FastAPIQuickstart

/-- Modelled from the spec: audience values observed for tokens
(`TokenAudience` in `apps/CORE/enums.py`, not shown in the excerpt):
ACCESS and REFRESH. -/
inductive TokenAudience where
  | access
  | refresh
  deriving DecidableEq, Repr

/-- Modelled from the spec: the typed errors of the token codec:
`InvalidSignature` (tampered or wrong key), `Expired` (past validity
window), `AudienceMismatch` (wrong audience presented). -/
inductive CodecError where
  | invalidSignature
  | expired
  | audienceMismatch
  deriving DecidableEq, Repr

/-- Claims payload: a mapping of string keys to string values
(e.g. the principal id under key "id"). -/
abbrev Claims := List (String × String)

/-- A small numeric tag for an audience, used by the signature model. -/
def TokenAudience.tag : TokenAudience → Nat
  | .access => 1
  | .refresh => 2

/-- Modelled from the spec: the signature of a token payload, a
tamper-evident tag recomputable from the secret key and every signed
field (`apps/CORE/managers.py` delegates to a JWT library HMAC, which
is abstracted here as a concrete recomputation of payload and key). -/
def signature (secret : Nat) (claims : Claims) (aud : TokenAudience) (iat exp : Nat) : Nat :=
  secret + 3 * iat + 5 * exp + 7 * aud.tag +
    11 * claims.foldl (fun acc p => acc + p.1.length + 2 * p.2.length) 0

/-- Modelled from the spec: the logical fields of an encoded token:
subject claims, audience, issued-at, expiry and signature. The encoded
wire string is a faithful (injective) serialization of exactly these
fields, so distinct `Token` values correspond to distinct strings. -/
structure Token where
  claims : Claims
  aud : TokenAudience
  iat : Nat
  exp : Nat
  sig : Nat
  deriving DecidableEq, Repr

/-- Modelled from the spec: `encode(claims, audience, expiry)` of the
Token Codec (`apps/CORE/managers.py`, not in the excerpt): serializes
claims + audience + issued-at + expiry into a signed token, where
expiry is issued-at plus the lifetime. Pure in its inputs and secret. -/
def encode (secret : Nat) (claims : Claims) (aud : TokenAudience) (now lifetime : Nat) : Token :=
  { claims := claims
    aud := aud
    iat := now
    exp := now + lifetime
    sig := signature secret claims aud now (now + lifetime) }

/-- Modelled from the spec: `decode(token, expected_audience)` of the
Token Codec: verifies the signature, then expiry (a token exactly at
its expiry instant is already expired: validity is `now < exp` with
second-granularity timestamps), then the audience claim. -/
def decode (secret : Nat) (t : Token) (expectedAud : TokenAudience) (now : Nat) :
    Except CodecError Claims :=
  if t.sig = signature secret t.claims t.aud t.iat t.exp then
    if t.exp ≤ now then .error .expired
    else if t.aud = expectedAud then .ok t.claims
    else .error .audienceMismatch
  else .error .invalidSignature

/-- Modelled from the spec: the `TokensManager` configuration from
`apps/main.py`: a process-wide secret key and a default token
lifetime in seconds, injected once at startup. -/
structure TokensManager where
  secretKey : Nat
  defaultTokenLifetime : Nat
  deriving DecidableEq, Repr

/-- Modelled from the spec: `TokensManager.create_code(data, aud,
lifetime)`: delegates to the codec's encode with the current
timestamp as issued-at and issued-at + lifetime as expiry. -/
def TokensManager.create_code (m : TokensManager) (data : Claims) (aud : TokenAudience)
    (now lifetime : Nat) : Token :=
  encode m.secretKey data aud now lifetime

/-- Modelled from the spec: `TokensManager.decode_code(token, aud)`:
delegates to the codec's decode, propagating every codec error. -/
def TokensManager.decode_code (m : TokensManager) (t : Token) (aud : TokenAudience)
    (now : Nat) : Except CodecError Claims :=
  decode m.secretKey t aud now

/-- The claims carried by an ACCESS token: the principal id. -/
def accessClaims (principalId : String) : Claims :=
  [("id", principalId)]

/-- The claims carried by a REFRESH token: the principal id plus a
token id supporting rotation/invalidation. -/
def refreshClaims (principalId : String) (tokenId : Nat) : Claims :=
  [("id", principalId), ("token_id", toString tokenId)]

/-- Modelled from the spec: `TokensManager.create_pair(principal_id,
token_id)`: one ACCESS-audience token and one REFRESH-audience token,
both carrying the principal id; REFRESH additionally carries the
token id. -/
def TokensManager.create_pair (m : TokensManager) (principalId : String) (tokenId : Nat)
    (now : Nat) : Token × Token :=
  (m.create_code (accessClaims principalId) .access now m.defaultTokenLifetime,
   m.create_code (refreshClaims principalId tokenId) .refresh now m.defaultTokenLifetime)

/-- User statuses (`UsersStatuses` in `apps/users/enums.py`, observed
in tests/apps/users/test_routers.py): UNCONFIRMED, CONFIRMED,
ARCHIVED. -/
inductive UsersStatuses where
  | unconfirmed
  | confirmed
  | archived
  deriving DecidableEq, Repr

/-- Modelled from the spec: a stored user record (principal): unique
id, email, password, status. -/
structure User where
  id : String
  email : String
  password : String
  status : UsersStatuses
  deriving DecidableEq, Repr

/-- JSEND statuses (`JSENDStatus` in `apps/CORE/enums.py`, used by
`apps/main.py` and the tests). -/
inductive JSENDStatus where
  | success
  | fail
  | error
  deriving DecidableEq, Repr

/-- A JSEND-shaped response body as asserted by
tests/apps/users/test_routers.py: status, data (a token pair or
null), message and code (equal to the HTTP status code in every
observed response). -/
structure JSENDResponse where
  status : JSENDStatus
  data : Option (Token × Token)
  message : String
  code : Nat
  deriving DecidableEq, Repr

/-- The failure body of login for a missing user or an inactive user
(tests/apps/users/test_routers.py, test_login_400_no_user and
test_login_400_inactive_user). -/
def invalidCredentialsResponse : JSENDResponse :=
  { status := .fail, data := none, message := "Invalid credentials.", code := 400 }

/-- The failure body of refresh for an undecodable token
(test_refresh_400_invalid). -/
def invalidJWTResponse : JSENDResponse :=
  { status := .fail, data := none, message := "Invalid JWT.", code := 400 }

/-- The failure body of refresh for an ARCHIVED or UNCONFIRMED
principal (test_refresh_400_inactive). -/
def inactiveUserResponse : JSENDResponse :=
  { status := .fail, data := none, message := "Inactive user.", code := 400 }

/-- The success message of login and refresh (test_login_200,
test_refresh_200). -/
def tokensIssuedMessage : String :=
  "Tokens to authenticate user for working with API."

/-- Look up a stored user by email. -/
def findUserByEmail (users : List User) (email : String) : Option User :=
  users.find? (fun u => u.email == email)

/-- Look up a stored user by id. -/
def findUserById (users : List User) (uid : String) : Option User :=
  users.find? (fun u => u.id == uid)

/-- Modelled from the spec: the login handler (`apps/users/routers.py`
and services, not in the excerpt; behaviour fixed by
TestTokensRouter): resolve the email; a missing user, a wrong
password, or a status other than CONFIRMED all yield the same
"Invalid credentials." failure; otherwise issue a token pair. -/
def login (m : TokensManager) (users : List User) (email password : String)
    (tokenId now : Nat) : JSENDResponse :=
  match findUserByEmail users email with
  | none => invalidCredentialsResponse
  | some u =>
    if u.password == password && u.status == .confirmed then
      { status := .success
        data := some (m.create_pair u.id tokenId now)
        message := tokensIssuedMessage
        code := 200 }
    else invalidCredentialsResponse

/-- Modelled from the spec: the refresh handler (`apps/users` routers
and services, not in the excerpt; behaviour fixed by
TestTokensRouter): decode the refresh token with audience REFRESH (any
codec error yields "Invalid JWT."), resolve the principal id from the
claims, reject a principal that is missing or not CONFIRMED with
"Inactive user." and no tokens, otherwise issue a fresh pair. -/
def refresh (m : TokensManager) (users : List User) (t : Token) (tokenId now : Nat) :
    JSENDResponse :=
  match m.decode_code t .refresh now with
  | .error _ => invalidJWTResponse
  | .ok claims =>
    match claims.lookup "id" with
    | none => invalidJWTResponse
    | some uid =>
      match findUserById users uid with
      | none => inactiveUserResponse
      | some u =>
        if u.status == .confirmed then
          { status := .success
            data := some (m.create_pair u.id tokenId now)
            message := tokensIssuedMessage
            code := 200 }
        else inactiveUserResponse

/-- An inbound request as seen by the authentication backend: the
parsed Authorization header, if present, as its scheme word and the
carried token. -/
structure Request where
  authorization : Option (String × Token)
  deriving DecidableEq, Repr

/-- The underlying causes of an authentication rejection, logged
server-side but never shown to the caller. -/
inductive AuthFailureCause where
  | invalidSignature
  | expired
  | audienceMismatch
  | unknownPrincipal
  | inactivePrincipal
  deriving DecidableEq, Repr

/-- The exception raised by the authentication backend on rejection:
an internal cause (for logging) and the message that `str(exc)`
renders for the caller-facing layer. -/
structure AuthError where
  cause : AuthFailureCause
  message : String
  deriving DecidableEq, Repr

/-- Modelled from the spec: the generic caller-facing message of every
AuthenticationFailed rejection; it carries no internal detail. -/
def authenticationFailedMessage : String := "Not authenticated."

/-- The outcome of authenticating a request: anonymous (non-error,
request proceeds unauthenticated), authenticated with a principal, or
an error handed to the middleware's on_error callback. -/
inductive AuthResult where
  | anonymous
  | authenticated (u : User)
  | error (e : AuthError)
  deriving DecidableEq, Repr

/-- Map a codec error to its internal failure cause. -/
def causeOfCodec : CodecError → AuthFailureCause
  | .invalidSignature => .invalidSignature
  | .expired => .expired
  | .audienceMismatch => .audienceMismatch

/-- Modelled from the spec: `JWTTokenBackend` (constructed in
`apps/main.py` with scheme_prefix "Bearer"): its configured scheme
word. -/
structure JWTTokenBackend where
  scheme : String
  deriving DecidableEq, Repr

/-- Modelled from the spec: `JWTTokenBackend.authenticate`: no header
or a wrong scheme word yields Anonymous; otherwise the token is
decoded with audience ACCESS, the principal is loaded by the id claim,
and any codec error, unknown principal or non-CONFIRMED principal
raises AuthenticationFailed with the generic message. -/
def JWTTokenBackend.authenticate (b : JWTTokenBackend) (m : TokensManager)
    (users : List User) (req : Request) (now : Nat) : AuthResult :=
  match req.authorization with
  | none => .anonymous
  | some (scheme, tok) =>
    if scheme ≠ b.scheme then .anonymous
    else
      match m.decode_code tok .access now with
      | .error e => .error { cause := causeOfCodec e, message := authenticationFailedMessage }
      | .ok claims =>
        match claims.lookup "id" with
        | none => .error { cause := .unknownPrincipal, message := authenticationFailedMessage }
        | some uid =>
          match findUserById users uid with
          | none => .error { cause := .unknownPrincipal, message := authenticationFailedMessage }
          | some u =>
            if u.status == .confirmed then .authenticated u
            else .error { cause := .inactivePrincipal, message := authenticationFailedMessage }

/-- The on_error callback installed on the AuthenticationMiddleware in
apps/main.py lines 58-65: an ORJSONResponse with JSEND FAIL status,
null data, `str(exc)` as message and code 401. -/
def on_error (e : AuthError) : JSENDResponse :=
  { status := .fail, data := none, message := e.message, code := 401 }

/-- Modelled from the spec: the group → role and role → permission
state the AuthorizationManager queries (ORM relations, not in the
excerpt): principal-group memberships, group-role memberships and
role-permission memberships as finite relations. -/
structure AuthzState where
  principalGroups : List (String × String)
  groupRoles : List (String × String)
  rolePermissions : List (String × String)
  deriving DecidableEq, Repr

/-- Modelled from the spec: `has_permission(principal,
permission_name)`: true iff the permission name is reachable through
some group of the principal and some role of that group, by
case-sensitive exact match. -/
def has_permission (s : AuthzState) (principalId permissionName : String) : Bool :=
  s.principalGroups.any fun pg =>
    pg.1 == principalId && s.groupRoles.any fun gr =>
      gr.1 == pg.2 && s.rolePermissions.any fun rp =>
        rp.1 == gr.2 && rp.2 == permissionName

/-- Modelled from the spec: the effective permission set of a
principal: the union (as a list of names, possibly with repeats) of
the permissions of all roles of all groups of the principal. -/
def effectivePermissions (s : AuthzState) (principalId : String) : List String :=
  (s.principalGroups.filter fun pg => pg.1 == principalId).flatMap fun pg =>
    (s.groupRoles.filter fun gr => gr.1 == pg.2).flatMap fun gr =>
      (s.rolePermissions.filter fun rp => rp.1 == gr.2).map fun rp => rp.2

/-- Add one group-role membership to the state, leaving the other
relations unchanged. -/
def addRole (s : AuthzState) (group role : String) : AuthzState :=
  { s with groupRoles := (group, role) :: s.groupRoles }

/-- A signing operation log entry: the claims and audience passed to
one create_code call. -/
abbrev SignCall := Claims × TokenAudience

/-- Modelled from the spec: one create_code signing operation under an
instrumented signer: the signer is invoked on the index of this call
(the number of calls made so far) and the call is appended to the
log. -/
def create_codeTraced (sign : Nat → String) (log : List SignCall) (data : Claims)
    (aud : TokenAudience) : String × List SignCall :=
  (sign log.length, log ++ [(data, aud)])

/-- Modelled from the spec: the two signing operations of login (one
per audience, in order ACCESS then REFRESH), threaded through the
instrumented signer; returns the two token strings and the call
log. -/
def loginSignOperations (sign : Nat → String) (principalId : String) (tokenId : Nat) :
    (String × String) × List SignCall :=
  let ra := create_codeTraced sign [] (accessClaims principalId) .access
  let rr := create_codeTraced sign ra.2 (refreshClaims principalId tokenId) .refresh
  ((ra.1, rr.1), rr.2)

/-- C1: decoding an encoded token with the same audience, strictly
before issued-at + lifetime, returns the claims unchanged. -/
theorem decode_encode_roundtrip (secret : Nat) (C : Claims) (A : TokenAudience)
    (now L t : Nat) (h : t < now + L) :
    decode secret (encode secret C A now L) A t = .ok C := by
  simp [decode, encode, Nat.not_le.mpr h]

/-- Witness for C1 at concrete inputs. -/
theorem decode_encode_roundtrip_witness :
    (5 : Nat) < 0 + 10 ∧
      decode 42 (encode 42 [("id", "7")] .access 0 10) .access 5 = .ok [("id", "7")] :=
  ⟨by decide, decode_encode_roundtrip 42 [("id", "7")] .access 0 10 5 (by decide)⟩

/-- C2: an authentic token (signature recomputable from the secret)
decoded at any time at or after its expiry timestamp fails with
Expired, for any expected audience: the validity boundary is
exclusive, so decoding exactly at the expiry instant is rejected. -/
theorem decode_expired (secret : Nat) (t : Token) (expectedAud : TokenAudience) (now : Nat)
    (hsig : t.sig = signature secret t.claims t.aud t.iat t.exp)
    (hexp : t.exp ≤ now) :
    decode secret t expectedAud now = .error .expired := by
  simp [decode, hsig, hexp]

/-- Witness for C2 at the exact expiry instant of a freshly encoded
token. -/
theorem decode_expired_witness :
    (encode 42 [("id", "7")] .access 3 10).sig =
        signature 42 (encode 42 [("id", "7")] .access 3 10).claims
          (encode 42 [("id", "7")] .access 3 10).aud
          (encode 42 [("id", "7")] .access 3 10).iat
          (encode 42 [("id", "7")] .access 3 10).exp ∧
      (encode 42 [("id", "7")] .access 3 10).exp ≤ 13 ∧
      decode 42 (encode 42 [("id", "7")] .access 3 10) .access 13 = .error .expired :=
  ⟨by decide, by decide,
    decode_expired 42 (encode 42 [("id", "7")] .access 3 10) .access 13 (by decide) (by decide)⟩

/-- C3: a token encoded with audience A, decoded with an expected
audience different from A, is never accepted, and inside the validity
window the failure is AudienceMismatch. -/
theorem decode_audience_mismatch (secret : Nat) (C : Claims) (A A' : TokenAudience)
    (now L t : Nat) (hA : A' ≠ A) :
    (t < now + L → decode secret (encode secret C A now L) A' t = .error .audienceMismatch) ∧
      ∀ c, decode secret (encode secret C A now L) A' t ≠ .ok c := by
  constructor
  · intro ht
    simp [decode, encode, Nat.not_le.mpr ht, Ne.symm hA]
  · intro c
    by_cases ht : now + L ≤ t
    · simp [decode, encode, ht]
    · simp [decode, encode, ht, Ne.symm hA]

/-- Witness for C3: an ACCESS token decoded with expected audience
REFRESH inside its validity window fails with AudienceMismatch. -/
theorem decode_audience_mismatch_witness :
    TokenAudience.refresh ≠ TokenAudience.access ∧
      (5 : Nat) < 0 + 10 ∧
      decode 42 (encode 42 [("id", "7")] .access 0 10) .refresh 5 = .error .audienceMismatch :=
  ⟨by decide, by decide,
    (decode_audience_mismatch 42 [("id", "7")] .access .refresh 0 10 5 (by decide)).1 (by decide)⟩

/-- C7: the two tokens returned by create_pair are always distinct:
the ACCESS-audience token never equals the REFRESH-audience token,
even though both carry the principal id. -/
theorem create_pair_distinct (m : TokensManager) (principalId : String) (tokenId : Nat)
    (now : Nat) :
    (m.create_pair principalId tokenId now).1 ≠ (m.create_pair principalId tokenId now).2 := by
  simp [TokensManager.create_pair, TokensManager.create_code, encode, Token.mk.injEq]

/-- Helper: decoding a create_code token with the matching audience
inside its validity window returns the claims. -/
theorem decode_create_code_ok (m : TokensManager) (data : Claims) (aud : TokenAudience)
    (t0 L now : Nat) (h : now < t0 + L) :
    m.decode_code (m.create_code data aud t0 L) aud now = .ok data := by
  simp [TokensManager.decode_code, TokensManager.create_code, decode, encode, Nat.not_le.mpr h]

/-- C4: refreshing with a well-formed refresh token whose principal
exists but has status ARCHIVED or UNCONFIRMED yields the
"Inactive user." failure with null data: no new tokens are issued. -/
theorem refresh_inactive_rejected (m : TokensManager) (users : List User) (u : User)
    (oldTokenId : Nat) (t0 tokenId now : Nat)
    (hfind : findUserById users u.id = some u)
    (hstatus : u.status = .archived ∨ u.status = .unconfirmed)
    (htime : now < t0 + m.defaultTokenLifetime) :
    refresh m users
        (m.create_code (refreshClaims u.id oldTokenId) .refresh t0 m.defaultTokenLifetime)
        tokenId now = inactiveUserResponse := by
  have hdec := decode_create_code_ok m (refreshClaims u.id oldTokenId) .refresh t0
    m.defaultTokenLifetime now htime
  simp only [refreshClaims] at hdec
  rcases hstatus with h | h <;>
    simp [refresh, refreshClaims, hdec, List.lookup, hfind, h]

/-- Witness for C4: an ARCHIVED user with a fresh refresh token is
rejected with the inactive-user failure. -/
theorem refresh_inactive_rejected_witness :
    findUserById [⟨"7", "a@b.c", "pw", .archived⟩] "7" = some ⟨"7", "a@b.c", "pw", .archived⟩ ∧
      (5 : Nat) < 0 + 10 ∧
      refresh ⟨42, 10⟩ [⟨"7", "a@b.c", "pw", .archived⟩]
          (TokensManager.create_code ⟨42, 10⟩ (refreshClaims "7" 1) .refresh 0 10)
          2 5 = inactiveUserResponse :=
  ⟨by decide, by decide,
    refresh_inactive_rejected ⟨42, 10⟩ [⟨"7", "a@b.c", "pw", .archived⟩]
      ⟨"7", "a@b.c", "pw", .archived⟩ 1 0 2 5 (by decide) (Or.inl rfl) (by decide)⟩

/-- Helper: every error outcome of the authentication backend carries
the generic message. -/
theorem authenticate_error_message (b : JWTTokenBackend) (m : TokensManager)
    (users : List User) (req : Request) (now : Nat) (e : AuthError)
    (h : b.authenticate m users req now = .error e) :
    e.message = authenticationFailedMessage := by
  simp only [JWTTokenBackend.authenticate] at h
  repeat' split at h
  all_goals first
    | exact AuthResult.noConfusion h
    | (injection h with h2; subst h2; rfl)

/-- C5: any two authentication failures, whatever their underlying
causes, produce the same caller-facing response through the on_error
handler of apps/main.py: JSEND FAIL, null data, the generic message,
code 401 — no internal detail leaks. -/
theorem auth_failures_same_response (b1 b2 : JWTTokenBackend) (m1 m2 : TokensManager)
    (users1 users2 : List User) (req1 req2 : Request) (now1 now2 : Nat) (e1 e2 : AuthError)
    (h1 : b1.authenticate m1 users1 req1 now1 = .error e1)
    (h2 : b2.authenticate m2 users2 req2 now2 = .error e2) :
    on_error e1 = on_error e2 ∧
      on_error e1 =
        { status := .fail, data := none, message := authenticationFailedMessage, code := 401 } := by
  have he1 := authenticate_error_message b1 m1 users1 req1 now1 e1 h1
  have he2 := authenticate_error_message b2 m2 users2 req2 now2 e2 h2
  exact ⟨by simp [on_error, he1, he2], by simp [on_error, he1]⟩

/-- Witness for C5: a tampered-signature failure and an
inactive-principal failure give identical on_error responses. -/
theorem auth_failures_same_response_witness :
    JWTTokenBackend.authenticate ⟨"Bearer"⟩ ⟨42, 10⟩ []
        ⟨some ("Bearer", ⟨[("id", "1")], .access, 0, 10, 0⟩)⟩ 5 =
      .error ⟨.invalidSignature, authenticationFailedMessage⟩ ∧
      JWTTokenBackend.authenticate ⟨"Bearer"⟩ ⟨42, 10⟩ [⟨"1", "a@b.c", "pw", .archived⟩]
          ⟨some ("Bearer", encode 42 (accessClaims "1") .access 0 10)⟩ 5 =
        .error ⟨.inactivePrincipal, authenticationFailedMessage⟩ ∧
      on_error ⟨.invalidSignature, authenticationFailedMessage⟩ =
        on_error ⟨.inactivePrincipal, authenticationFailedMessage⟩ :=
  ⟨by decide, by decide,
    (auth_failures_same_response ⟨"Bearer"⟩ ⟨"Bearer"⟩ ⟨42, 10⟩ ⟨42, 10⟩ []
      [⟨"1", "a@b.c", "pw", .archived⟩] ⟨some ("Bearer", ⟨[("id", "1")], .access, 0, 10, 0⟩)⟩
      ⟨some ("Bearer", encode 42 (accessClaims "1") .access 0 10)⟩ 5 5
      ⟨.invalidSignature, authenticationFailedMessage⟩
      ⟨.inactivePrincipal, authenticationFailedMessage⟩ (by decide) (by decide)).1⟩

/-- C6: a request with no Authorization header, or whose scheme word
differs from the backend's configured one, authenticates to the
Anonymous outcome, not to an error. -/
theorem authenticate_anonymous (b : JWTTokenBackend) (m : TokensManager) (users : List User)
    (now : Nat) :
    (∀ req : Request, req.authorization = none → b.authenticate m users req now = .anonymous) ∧
      ∀ (scheme : String) (tok : Token), scheme ≠ b.scheme →
        b.authenticate m users ⟨some (scheme, tok)⟩ now = .anonymous := by
  constructor
  · intro req h
    simp [JWTTokenBackend.authenticate, h]
  · intro scheme tok h
    simp [JWTTokenBackend.authenticate, h]

/-- Witness for C6: a header-less request and a "Token"-scheme request
are both anonymous under a "Bearer" backend. -/
theorem authenticate_anonymous_witness :
    (Request.mk none).authorization = none ∧
      "Token" ≠ (JWTTokenBackend.mk "Bearer").scheme ∧
      JWTTokenBackend.authenticate ⟨"Bearer"⟩ ⟨42, 10⟩ [] ⟨none⟩ 0 = .anonymous ∧
      JWTTokenBackend.authenticate ⟨"Bearer"⟩ ⟨42, 10⟩ []
          ⟨some ("Token", ⟨[], .access, 0, 10, 0⟩)⟩ 0 = .anonymous :=
  ⟨rfl, by decide,
    (authenticate_anonymous ⟨"Bearer"⟩ ⟨42, 10⟩ [] 0).1 ⟨none⟩ rfl,
    (authenticate_anonymous ⟨"Bearer"⟩ ⟨42, 10⟩ [] 0).2 "Token" ⟨[], .access, 0, 10, 0⟩
      (by decide)⟩

/-- C8: issuing the login pair performs exactly two signing
operations, first with the ACCESS claims then with the REFRESH claims,
and the two token strings are the results of the first and second
invocations of the signer respectively — the second is its own call,
never a reuse of the first result, whatever the signer returns. -/
theorem login_two_sign_operations (sign : Nat → String) (principalId : String) (tokenId : Nat) :
    loginSignOperations sign principalId tokenId =
      ((sign 0, sign 1),
        [(accessClaims principalId, .access), (refreshClaims principalId tokenId, .refresh)]) :=
  rfl

/-- Helper: has_permission is membership in the effective permission
set, the union over all the principal's groups' roles' permissions. -/
theorem has_permission_iff_mem (s : AuthzState) (principalId permissionName : String) :
    has_permission s principalId permissionName = true ↔
      permissionName ∈ effectivePermissions s principalId := by
  simp only [has_permission, effectivePermissions, List.any_eq_true, Bool.and_eq_true,
    List.mem_flatMap, List.mem_filter, List.mem_map, beq_iff_eq]
  constructor
  · rintro ⟨pg, hpg, hpid, gr, hgr, hgrp, rp, hrp, hrole, hname⟩
    exact ⟨pg, ⟨hpg, hpid⟩, gr, ⟨hgr, hgrp⟩, rp, ⟨hrp, hrole⟩, hname⟩
  · rintro ⟨pg, ⟨hpg, hpid⟩, gr, ⟨hgr, hgrp⟩, rp, ⟨hrp, hrole⟩, hname⟩
    exact ⟨pg, hpg, hpid, gr, hgr, hgrp, rp, hrp, hrole, hname⟩

/-- C9: has_permission is monotonic — adding one group-role membership
(a role granted to one of the principal's groups), with all other
relations unchanged, preserves every granted permission — and a
permission is granted exactly when it lies in the effective permission
set, the union over all the principal's groups' roles' permissions. -/
theorem has_permission_monotone_union (s : AuthzState)
    (group role principalId permissionName : String) :
    (has_permission s principalId permissionName = true →
      has_permission (addRole s group role) principalId permissionName = true) ∧
      (has_permission s principalId permissionName = true ↔
        permissionName ∈ effectivePermissions s principalId) := by
  constructor
  · intro h
    simp only [has_permission, addRole, List.any_cons, List.any_eq_true, Bool.and_eq_true,
      Bool.or_eq_true] at h ⊢
    obtain ⟨pg, hpg, hpid, hrest⟩ := h
    exact ⟨pg, hpg, hpid, Or.inr hrest⟩
  · exact has_permission_iff_mem s principalId permissionName

/-- Witness for C9: a permission granted through one group-role chain
survives adding a second role to the group and lies in the effective
permission set. -/
theorem has_permission_monotone_union_witness :
    has_permission ⟨[("u", "g")], [("g", "r")], [("r", "wish:create")]⟩ "u" "wish:create" = true ∧
      has_permission (addRole ⟨[("u", "g")], [("g", "r")], [("r", "wish:create")]⟩ "g" "r2")
          "u" "wish:create" = true ∧
      "wish:create" ∈
        effectivePermissions ⟨[("u", "g")], [("g", "r")], [("r", "wish:create")]⟩ "u" :=
  ⟨by decide,
    (has_permission_monotone_union ⟨[("u", "g")], [("g", "r")], [("r", "wish:create")]⟩
      "g" "r2" "u" "wish:create").1 (by decide),
    (has_permission_monotone_union ⟨[("u", "g")], [("g", "r")], [("r", "wish:create")]⟩
      "g" "r2" "u" "wish:create").2.mp (by decide)⟩

/-- C10: login answers with the identical "Invalid credentials."
failure (JSEND FAIL, null data, code 400) whether the email matches no
stored user or matches a user whose status is not CONFIRMED, so the
response does not reveal whether the account exists. -/
theorem login_no_user_vs_inactive (m : TokensManager) (users1 users2 : List User) (u : User)
    (email password : String) (tokenId now : Nat)
    (h1 : findUserByEmail users1 email = none)
    (h2 : findUserByEmail users2 email = some u)
    (h3 : u.status ≠ .confirmed) :
    login m users1 email password tokenId now = invalidCredentialsResponse ∧
      login m users2 email password tokenId now = invalidCredentialsResponse := by
  have hb : (u.status == UsersStatuses.confirmed) = false := by
    simpa using h3
  exact ⟨by simp [login, h1], by simp [login, h2, hb]⟩

/-- Witness for C10: an empty user store and a store holding an
UNCONFIRMED user with the submitted email (and matching password) give
the same invalid-credentials response. -/
theorem login_no_user_vs_inactive_witness :
    findUserByEmail [] "a@b.c" = none ∧
      findUserByEmail [⟨"1", "a@b.c", "pw", .unconfirmed⟩] "a@b.c" =
        some ⟨"1", "a@b.c", "pw", .unconfirmed⟩ ∧
      login ⟨42, 10⟩ [] "a@b.c" "pw" 1 0 = invalidCredentialsResponse ∧
      login ⟨42, 10⟩ [⟨"1", "a@b.c", "pw", .unconfirmed⟩] "a@b.c" "pw" 1 0 =
        invalidCredentialsResponse :=
  ⟨rfl, by decide,
    (login_no_user_vs_inactive ⟨42, 10⟩ [] [⟨"1", "a@b.c", "pw", .unconfirmed⟩]
      ⟨"1", "a@b.c", "pw", .unconfirmed⟩ "a@b.c" "pw" 1 0 rfl (by decide) (by decide)).1,
    (login_no_user_vs_inactive ⟨42, 10⟩ [] [⟨"1", "a@b.c", "pw", .unconfirmed⟩]
      ⟨"1", "a@b.c", "pw", .unconfirmed⟩ "a@b.c" "pw" 1 0 rfl (by decide) (by decide)).2⟩

end FastAPIQuickstart
